import Mathlib

/-!
Shallow embedding of the geometric core of the pak-passport-photo-app
repository: the face-placement transform of `src/App.js`
(`PakistaniPassportPhotoEditor`) and the crop/draw logic of
`src/components/PassportPhotoEditor.js`.

Image-space coordinates and all intermediate arithmetic are modelled over ℚ
(the JS code computes with IEEE doubles; the claims under study are about the
exact formulas, which ℚ represents faithfully).  The eye-line angle check uses
`Math.atan2`, modelled over ℝ with `Real.arctan`.
-/

/-- A 2-D point in image pixel space (a face-api.js landmark position). -/
structure Point where
  x : ℚ
  y : ℚ
deriving DecidableEq

/-- A face bounding box, as in `detection.detection.box` of face-api.js. -/
structure Box where
  x : ℚ
  y : ℚ
  width : ℚ
  height : ℚ
deriving DecidableEq

/-- A face detection result: bounding box plus the 68 landmark positions
(`detection.landmarks.positions`), indexed as face-api.js does
(8 = chin, 30 = nose tip = `getNose()[3]`, 36 = `getLeftEye()[0]`,
42 = `getRightEye()[0]`). -/
structure FaceDetection where
  box : Box
  positions : ℕ → Point

/-- Pixel dimensions of an uploaded image. -/
structure ImageDims where
  width : ℕ
  height : ℕ
deriving DecidableEq

/-- Millimetres to pixels at the given DPI: `Math.round((mm / 25.4) * dpi)`.
Mathlib's `round x = ⌊x + 1/2⌋` agrees with JS `Math.round`. -/
def mmToPx (mm dpi : ℚ) : ℤ :=
  round (mm / 25.4 * dpi)

/-- `getTopOfHead` from `src/App.js`: the head-top estimate, a
zoom-scaled offset above the bounding box's top edge, clamped at 0, with the
x-coordinate of the nose tip (`landmarks.getNose()[3]` = position 30). -/
def getTopOfHead (detection : FaceDetection) (currentZoomFactor : ℚ) : Point :=
  { x := (detection.positions 30).x
    y := max 0 (detection.box.y - detection.box.height * currentZoomFactor) }

/-- The outputs of the cropped-canvas effect of `src/App.js`: the canvas
dimensions it sets and the scale/translation it hands to `drawImage`. -/
structure CroppedCanvasResult where
  width : ℤ
  height : ℤ
  scale : ℚ
  offsetX : ℚ
  offsetY : ℚ
  destWidth : ℚ
  destHeight : ℚ
deriving DecidableEq

/-- The cropped-canvas effect of `src/App.js` (lines 248-289): sizes the
canvas from the 35×45 mm spec at 600 DPI, scales so the chin-to-estimated-head-
top distance maps to the midpoint of the head-height range, and translates so
the head top sits at the top margin and the face centre at the horizontal
centre, with the user pixel offsets added directly. -/
def updateCroppedCanvasPk (originalImage : ImageDims) (faceDetection : FaceDetection)
    (zoomFactor verticalOffset horizontalOffset : ℚ) : CroppedCanvasResult :=
  let dpi : ℚ := 600
  let passportWidthPx := mmToPx 35 dpi
  let passportHeightPx := mmToPx 45 dpi
  let chin := faceDetection.positions 8
  let topOfHead := getTopOfHead faceDetection zoomFactor
  let minHeadHeightPx := mmToPx 32 dpi
  let maxHeadHeightPx := mmToPx 36 dpi
  let targetHeadHeightPx : ℚ := ((minHeadHeightPx : ℚ) + (maxHeadHeightPx : ℚ)) / 2
  let actualHeadHeightPx := chin.y - topOfHead.y
  let scale := targetHeadHeightPx / actualHeadHeightPx
  let topMarginPx := mmToPx 3.5 dpi
  let scaledTopOfHeadY := topOfHead.y * scale
  let offsetY := (topMarginPx : ℚ) - scaledTopOfHeadY + verticalOffset
  let faceCenterX := faceDetection.box.x + faceDetection.box.width / 2
  let scaledFaceCenterX := faceCenterX * scale
  let offsetX := (passportWidthPx : ℚ) / 2 - scaledFaceCenterX + horizontalOffset
  { width := passportWidthPx
    height := passportHeightPx
    scale := scale
    offsetX := offsetX
    offsetY := offsetY
    destWidth := (originalImage.width : ℚ) * scale
    destHeight := (originalImage.height : ℚ) * scale }

/-! ## Image upload and face acceptance (`handleImageUpload`, `src/App.js`) -/

/-- The user-facing error conditions reported by `handleImageUpload`. -/
inductive UploadError where
  | lowResolution
  | noFace
  | notFrontal
deriving DecidableEq

/-- The component state written by `handleImageUpload`. -/
structure UploadState where
  originalImage : Option ImageDims
  faceDetection : Option FaceDetection
  uploadError : Option UploadError

/-- `Math.atan2 y x` over ℝ (the signed angle of the vector `(x, y)`). -/
noncomputable def atan2 (y x : ℝ) : ℝ :=
  if 0 < x then Real.arctan (y / x)
  else if x < 0 then
    if 0 ≤ y then Real.arctan (y / x) + Real.pi
    else Real.arctan (y / x) - Real.pi
  else
    if 0 < y then Real.pi / 2
    else if y < 0 then -(Real.pi / 2)
    else 0

/-- The eye-line angle in degrees computed by `handleImageUpload`:
`Math.atan2(rightEye[0].y - leftEye[0].y, rightEye[0].x - leftEye[0].x) * 180 / Math.PI`,
with `leftEye[0]` = landmark 36 and `rightEye[0]` = landmark 42. -/
noncomputable def eyeAngleDeg (detection : FaceDetection) : ℝ :=
  atan2 (((detection.positions 42).y - (detection.positions 36).y : ℚ) : ℝ)
        (((detection.positions 42).x - (detection.positions 36).x : ℚ) : ℝ)
    * 180 / Real.pi

/-- `MIN_IMAGE_RESOLUTION` from `src/App.js`. -/
def MIN_IMAGE_RESOLUTION : ℕ := 600

/-- `EYE_ANGLE_TOLERANCE_DEGREES` from `src/App.js`. -/
def EYE_ANGLE_TOLERANCE_DEGREES : ℝ := 10

/-- `handleImageUpload` from `src/App.js`, as a function of the loaded image
and of the result returned by the external face-detection capability
(`none` when `detectSingleFace` finds no face).  The handler first resets the
image, detection and error state; then: images below the minimum resolution
are rejected before the image is stored; with no detection an error is
reported; a detection whose eye-line angle exceeds the tolerance is rejected;
otherwise the detection is stored.  (The model-not-loaded and exception paths
concern the external capability and are not modelled.) -/
noncomputable def handleImageUpload (img : ImageDims)
    (detection : Option FaceDetection) : UploadState :=
  if img.width < MIN_IMAGE_RESOLUTION ∨ img.height < MIN_IMAGE_RESOLUTION then
    { originalImage := none, faceDetection := none,
      uploadError := some .lowResolution }
  else
    match detection with
    | none =>
        { originalImage := some img, faceDetection := none,
          uploadError := some .noFace }
    | some d =>
        if EYE_ANGLE_TOLERANCE_DEGREES < |eyeAngleDeg d| then
          { originalImage := some img, faceDetection := none,
            uploadError := some .notFrontal }
        else
          { originalImage := some img, faceDetection := some d,
            uploadError := none }

/-- The component state read by the cropped-canvas effect of `src/App.js`,
together with state the effect does not read (`isLoading`, the error state). -/
structure PkEditorState where
  originalImage : ImageDims
  faceDetection : FaceDetection
  zoomFactor : ℚ
  verticalOffset : ℚ
  horizontalOffset : ℚ
  isLoading : Bool
  errorState : Option UploadError

/-- The cropped-canvas effect as a function of the full component state. -/
def croppedCanvasEffect (s : PkEditorState) : CroppedCanvasResult :=
  updateCroppedCanvasPk s.originalImage s.faceDetection s.zoomFactor
    s.verticalOffset s.horizontalOffset

/-! ## Offset controls (`src/App.js`, lines 316-340) -/

/-- `MAX_VERTICAL_OFFSET` (= `MAX_HORIZONTAL_OFFSET`) from `src/App.js`. -/
def MAX_OFFSET : ℤ := 50

/-- `MIN_VERTICAL_OFFSET` (= `MIN_HORIZONTAL_OFFSET`) from `src/App.js`. -/
def MIN_OFFSET : ℤ := -50

/-- `handleMoveUp`: `Math.min(prevOffset + VERTICAL_STEP, MAX_VERTICAL_OFFSET)`. -/
def handleMoveUp (prevOffset : ℤ) : ℤ :=
  min (prevOffset + 1) MAX_OFFSET

/-- `handleMoveDown`: `Math.max(prevOffset - VERTICAL_STEP, MIN_VERTICAL_OFFSET)`. -/
def handleMoveDown (prevOffset : ℤ) : ℤ :=
  max (prevOffset - 1) MIN_OFFSET

/-- `handleVerticalOffsetChange`: stores `parseInt(event.target.value, 10)`
directly, with no clamping. -/
def handleVerticalOffsetChange (value : ℤ) : ℤ :=
  value

/-- `handleMoveLeft`: `Math.min(prevOffset + HORIZONTAL_STEP, MAX_HORIZONTAL_OFFSET)`. -/
def handleMoveLeft (prevOffset : ℤ) : ℤ :=
  min (prevOffset + 1) MAX_OFFSET

/-- `handleMoveRight`: `Math.max(prevOffset - HORIZONTAL_STEP, MIN_HORIZONTAL_OFFSET)`. -/
def handleMoveRight (prevOffset : ℤ) : ℤ :=
  max (prevOffset - 1) MIN_OFFSET

/-- `handleHorizontalOffsetChange`: stores `parseInt(event.target.value, 10)`
directly, with no clamping. -/
def handleHorizontalOffsetChange (value : ℤ) : ℤ :=
  value

/-- A user interaction with one offset control: the increment button, the
decrement button, or the range input firing a change event with a value. -/
inductive OffsetEvent where
  | increase : OffsetEvent
  | decrease : OffsetEvent
  | change : ℤ → OffsetEvent

/-- State update of the vertical offset for one event. -/
def applyVerticalEvent (prevOffset : ℤ) : OffsetEvent → ℤ
  | .increase => handleMoveUp prevOffset
  | .decrease => handleMoveDown prevOffset
  | .change v => handleVerticalOffsetChange v

/-- State update of the horizontal offset for one event. -/
def applyHorizontalEvent (prevOffset : ℤ) : OffsetEvent → ℤ
  | .increase => handleMoveLeft prevOffset
  | .decrease => handleMoveRight prevOffset
  | .change v => handleHorizontalOffsetChange v

/-- The event's requested value lies in the configured range (for a change
event, the value the range input reports; the buttons carry no value). -/
def requestInRange : OffsetEvent → Prop
  | .change v => MIN_OFFSET ≤ v ∧ v ≤ MAX_OFFSET
  | _ => True

/-- The stored offset after a sequence of events. -/
def runOffsetEvents (applyEvent : ℤ → OffsetEvent → ℤ) (init : ℤ)
    (events : List OffsetEvent) : ℤ :=
  events.foldl applyEvent init

/-! ## The `PassportPhotoEditor` component (`src/components/PassportPhotoEditor.js`) -/

/-- The crop region state: `{ x, y, width, height }`. -/
structure Rect where
  x : ℚ
  y : ℚ
  width : ℚ
  height : ℚ
deriving DecidableEq

/-- The dragging branch of `handleMouseMove` (lines 208-214): recentres the
crop region on the mouse, clamped so that it stays inside the image. -/
def handleMouseMoveDrag (originalImage : ImageDims) (cropRegion : Rect)
    (mouseX mouseY : ℚ) : Rect :=
  { x := max 0 (min (mouseX - cropRegion.width / 2)
                    ((originalImage.width : ℚ) - cropRegion.width))
    y := max 0 (min (mouseY - cropRegion.height / 2)
                    ((originalImage.height : ℚ) - cropRegion.height))
    width := cropRegion.width
    height := cropRegion.height }

/-- The bottom-right-resize branch of `handleMouseMove` (lines 215-236).
`currentAspectRatio` is the ratio selected by the handler's
`currentAspectRatio ? ... : aspectRatio` expressions (the custom ratio when
set and truthy, otherwise the preset / `aspectRatio` state); the same value is
used at every occurrence within one handler invocation. -/
def handleMouseMoveResize (originalImage : ImageDims) (cropRegion : Rect)
    (currentAspectRatio : ℚ) (mouseX : ℚ) : Rect :=
  let newWidth0 := max 50 (mouseX - cropRegion.x)
  let newHeight0 := newWidth0 / currentAspectRatio
  let newWidth1 :=
    if (originalImage.width : ℚ) < cropRegion.x + newWidth0 then
      (originalImage.width : ℚ) - cropRegion.x
    else newWidth0
  let newHeight1 :=
    if (originalImage.width : ℚ) < cropRegion.x + newWidth0 then
      ((originalImage.width : ℚ) - cropRegion.x) / currentAspectRatio
    else newHeight0
  let newHeight2 :=
    if (originalImage.height : ℚ) < cropRegion.y + newHeight1 then
      (originalImage.height : ℚ) - cropRegion.y
    else newHeight1
  let newWidth2 :=
    if (originalImage.height : ℚ) < cropRegion.y + newHeight1 then
      if (originalImage.width : ℚ)
          < cropRegion.x + ((originalImage.height : ℚ) - cropRegion.y) * currentAspectRatio then
        (originalImage.width : ℚ) - cropRegion.x
      else ((originalImage.height : ℚ) - cropRegion.y) * currentAspectRatio
    else newWidth1
  { x := cropRegion.x
    y := cropRegion.y
    width := newWidth2
    height := newHeight2 }

/-- The crop rectangle lies inside the image (with nonnegative extent). -/
def fitsInside (cropRegion : Rect) (originalImage : ImageDims) : Prop :=
  0 ≤ cropRegion.x ∧ 0 ≤ cropRegion.y ∧
  0 ≤ cropRegion.width ∧ 0 ≤ cropRegion.height ∧
  cropRegion.x + cropRegion.width ≤ (originalImage.width : ℚ) ∧
  cropRegion.y + cropRegion.height ≤ (originalImage.height : ℚ)

/-! ### The 2-D canvas context and `updateCroppedCanvas` -/

/-- A point of the drawing surface. -/
abbrev Vec2 := ℝ × ℝ

/-- Translation by `(dx, dy)`. -/
noncomputable def translateMap (dx dy : ℝ) (p : Vec2) : Vec2 :=
  (p.1 + dx, p.2 + dy)

/-- Rotation by `θ` radians about the origin. -/
noncomputable def rotateMap (θ : ℝ) (p : Vec2) : Vec2 :=
  (Real.cos θ * p.1 - Real.sin θ * p.2, Real.sin θ * p.1 + Real.cos θ * p.2)

/-- Uniform scaling by `k` about the origin. -/
noncomputable def scaleMap (k : ℝ) (p : Vec2) : Vec2 :=
  (k * p.1, k * p.2)

/-- A 2-D canvas context: its current transform, mapping the coordinates of
subsequent drawing operations to the surface. -/
structure Ctx where
  transform : Vec2 → Vec2

/-- `ctx.translate(dx, dy)`: post-composes the translation onto the current
transform (new drawing coordinates pass through the translation first). -/
noncomputable def ctxTranslate (ctx : Ctx) (dx dy : ℝ) : Ctx :=
  ⟨fun p => ctx.transform (translateMap dx dy p)⟩

/-- `ctx.rotate(θ)` (θ in radians). -/
noncomputable def ctxRotate (ctx : Ctx) (θ : ℝ) : Ctx :=
  ⟨fun p => ctx.transform (rotateMap θ p)⟩

/-- `ctx.scale(k, k)`. -/
noncomputable def ctxScale (ctx : Ctx) (k : ℝ) : Ctx :=
  ⟨fun p => ctx.transform (scaleMap k p)⟩

/-- The coordinate map of
`drawImage(src, crop.x, crop.y, crop.width, crop.height, 0, 0, w, h)`:
where a source-image point lands in drawing coordinates before the current
transform is applied. -/
noncomputable def cropToDest (cropRegion : Rect) (w h : ℝ) (p : Vec2) : Vec2 :=
  ((p.1 - (cropRegion.x : ℝ)) * (w / (cropRegion.width : ℝ)),
   (p.2 - (cropRegion.y : ℝ)) * (h / (cropRegion.height : ℝ)))

/-- The outputs of `updateCroppedCanvas` in
`src/components/PassportPhotoEditor.js`: the canvas dimensions it sets and
where each source-image point of the crop region is drawn on the canvas. -/
structure CompCanvasResult where
  width : ℤ
  height : ℤ
  drawnAt : Vec2 → Vec2

/-- `updateCroppedCanvas` (lines 114-149): sizes the canvas to 35×45 mm at
300 DPI, then translates to the canvas centre, rotates by the rotation angle
(degrees), scales by the zoom level, translates back, and draws the crop
region onto the full canvas. -/
noncomputable def updateCroppedCanvas (cropRegion : Rect)
    (zoomLevel rotationAngle : ℝ) : CompCanvasResult :=
  let dpi : ℚ := 300
  let passportWidthPx := mmToPx 35 dpi
  let passportHeightPx := mmToPx 45 dpi
  let ctx : Ctx := ⟨id⟩
  let ctx := ctxTranslate ctx ((passportWidthPx : ℝ) / 2) ((passportHeightPx : ℝ) / 2)
  let ctx := ctxRotate ctx (rotationAngle * Real.pi / 180)
  let ctx := ctxScale ctx zoomLevel
  let ctx := ctxTranslate ctx (-((passportWidthPx : ℝ) / 2)) (-((passportHeightPx : ℝ) / 2))
  { width := passportWidthPx
    height := passportHeightPx
    drawnAt := fun p =>
      ctx.transform (cropToDest cropRegion (passportWidthPx : ℝ) (passportHeightPx : ℝ) p) }

/-! ## Concrete instances used to instantiate the theorems -/

/-- A concrete face detection (all landmarks at the origin, box well inside a
600×600 image). -/
def sampleDetection : FaceDetection :=
  { box := { x := 100, y := 120, width := 200, height := 200 }
    positions := fun _ => { x := 0, y := 0 } }

/-- A concrete detection whose head-top estimate hits the zero clamp of
`getTopOfHead`: `y - height * zoom = 10 - 100 * 0.2 = -10 < 0`. -/
def clampDetection : FaceDetection :=
  { box := { x := 0, y := 10, width := 100, height := 100 }
    positions := fun _ => { x := 0, y := 0 } }

/-- A concrete editor state: model loaded, no error, default adjustments. -/
def stateA : PkEditorState :=
  { originalImage := { width := 640, height := 640 }
    faceDetection := sampleDetection
    zoomFactor := 0.2
    verticalOffset := 0
    horizontalOffset := 0
    isLoading := false
    errorState := none }

/-- The same inputs as `stateA` but different unrelated state (still loading,
an error message present). -/
def stateB : PkEditorState :=
  { originalImage := { width := 640, height := 640 }
    faceDetection := sampleDetection
    zoomFactor := 0.2
    verticalOffset := 0
    horizontalOffset := 0
    isLoading := true
    errorState := some UploadError.noFace }

/-! ## Theorems -/

/-- Claim C1: the scale factor computed by the cropped-canvas effect equals
`targetHeadHeightPx / (chinY - estimatedTopOfHeadY)`, where
`targetHeadHeightPx = (round(32/25.4*600) + round(36/25.4*600)) / 2` is the
midpoint of the head-height range in pixels. -/
theorem scale_eq_target_over_head_height (img : ImageDims) (d : FaceDetection)
    (z v h : ℚ) :
    (updateCroppedCanvasPk img d z v h).scale
      = ((round ((32 : ℚ) / 25.4 * 600) + round ((36 : ℚ) / 25.4 * 600) : ℤ) : ℚ) / 2
        / ((d.positions 8).y - (getTopOfHead d z).y) := by
  simp only [updateCroppedCanvasPk, mmToPx]
  push_cast
  ring

/-- Claim C2: for every input image the output canvas pixel dimensions equal
`round(mmWidth/25.4*dpi) × round(mmHeight/25.4*dpi)` for the component's
output spec (35×45 mm at 600 DPI in `src/App.js`, 35×45 mm at 300 DPI in
`src/components/PassportPhotoEditor.js`), independent of the input image. -/
theorem canvas_dims_eq_output_spec (img : ImageDims) (d : FaceDetection)
    (z v h : ℚ) (cropRegion : Rect) (zoomLevel rotationAngle : ℝ) :
    ((updateCroppedCanvasPk img d z v h).width = round ((35 : ℚ) / 25.4 * 600)
      ∧ (updateCroppedCanvasPk img d z v h).height = round ((45 : ℚ) / 25.4 * 600))
    ∧ ((updateCroppedCanvas cropRegion zoomLevel rotationAngle).width
          = round ((35 : ℚ) / 25.4 * 300)
      ∧ (updateCroppedCanvas cropRegion zoomLevel rotationAngle).height
          = round ((45 : ℚ) / 25.4 * 300)) :=
  ⟨⟨rfl, rfl⟩, ⟨rfl, rfl⟩⟩

/-- Claim C3: the translation computed by the cropped-canvas effect is
`offsetY = topMarginPx - scale * topOfHeadY + v` and
`offsetX = passportWidthPx / 2 - scale * faceCenterX + h`, with
`topMarginPx = round(3.5/25.4*600)` and `faceCenterX` the horizontal centre
of the face bounding box; the user offsets are added directly. -/
theorem translation_offsets_formula (img : ImageDims) (d : FaceDetection)
    (z v h : ℚ) :
    (updateCroppedCanvasPk img d z v h).offsetY
      = ((round ((3.5 : ℚ) / 25.4 * 600) : ℤ) : ℚ)
        - (updateCroppedCanvasPk img d z v h).scale * (getTopOfHead d z).y + v
    ∧ (updateCroppedCanvasPk img d z v h).offsetX
      = ((round ((35 : ℚ) / 25.4 * 600) : ℤ) : ℚ) / 2
        - (updateCroppedCanvasPk img d z v h).scale * (d.box.x + d.box.width / 2) + h := by
  constructor <;> simp only [updateCroppedCanvasPk, mmToPx] <;> ring

/-- Claim C4 is false as stated: at a detection with box top edge `y = 10`,
box height `100` and zoom factor `0.2`, the head-top estimate is `0`
(`Math.max` clamps it), not `y - height * zoom = -10`. -/
theorem topOfHead_unclamped_cex :
    (getTopOfHead clampDetection (1 / 5)).y
      ≠ clampDetection.box.y - clampDetection.box.height * (1 / 5) := by
  have h : clampDetection.box.y - clampDetection.box.height * (1 / 5) = (-10 : ℚ) := by
    norm_num [clampDetection]
  have h2 : (getTopOfHead clampDetection (1 / 5)).y = 0 := by
    simp only [getTopOfHead, h]
    exact max_eq_left (by norm_num)
  rw [h2, h]
  norm_num

/-- Claim C4 amended: the estimated top-of-head y-coordinate is the box's top
edge minus the zoom-scaled box height, clamped below at 0, i.e.
`max(0, y - height * zoom)` (hence never negative); its x-coordinate is taken
from the nose-tip landmark (position 30). -/
theorem topOfHead_clamped_formula (d : FaceDetection) (z : ℚ) :
    (getTopOfHead d z).y = max 0 (d.box.y - d.box.height * z)
    ∧ 0 ≤ (getTopOfHead d z).y
    ∧ (getTopOfHead d z).x = (d.positions 30).x :=
  ⟨rfl, le_max_left _ _, rfl⟩

/-- Claim C5 is false as stated: the range-input change handlers store the
requested value without clamping, so a requested value of 51 is stored as 51,
outside `[-50, 50]`. -/
theorem offsetChange_unclamped_cex :
    handleVerticalOffsetChange 51 = 51
    ∧ ¬ handleVerticalOffsetChange 51 ≤ MAX_OFFSET
    ∧ handleHorizontalOffsetChange 51 = 51
    ∧ ¬ handleHorizontalOffsetChange 51 ≤ MAX_OFFSET := by
  decide

/-- Helper: a range invariant propagated along a list of offset events, for
any per-event update that preserves it. -/
theorem runOffsetEvents_in_range (applyEvent : ℤ → OffsetEvent → ℤ)
    (hstep : ∀ v e, MIN_OFFSET ≤ v → v ≤ MAX_OFFSET → requestInRange e →
      MIN_OFFSET ≤ applyEvent v e ∧ applyEvent v e ≤ MAX_OFFSET)
    (events : List OffsetEvent) (init : ℤ)
    (h₁ : MIN_OFFSET ≤ init) (h₂ : init ≤ MAX_OFFSET)
    (hreq : ∀ e ∈ events, requestInRange e) :
    MIN_OFFSET ≤ runOffsetEvents applyEvent init events
    ∧ runOffsetEvents applyEvent init events ≤ MAX_OFFSET := by
  induction events generalizing init with
  | nil => exact ⟨h₁, h₂⟩
  | cons e es ih =>
      have he : requestInRange e := hreq e (List.mem_cons_self e es)
      have hv := hstep init e h₁ h₂ he
      exact ih (applyEvent init e) hv.1 hv.2
        (fun x hx => hreq x (List.mem_cons_of_mem e hx))

/-- Helper: one vertical-offset event preserves the `[-50, 50]` range when
the requested value (for change events) is in range. -/
theorem applyVerticalEvent_in_range (v : ℤ) (e : OffsetEvent)
    (h₁ : MIN_OFFSET ≤ v) (h₂ : v ≤ MAX_OFFSET) (he : requestInRange e) :
    MIN_OFFSET ≤ applyVerticalEvent v e ∧ applyVerticalEvent v e ≤ MAX_OFFSET := by
  cases e <;>
    simp only [applyVerticalEvent, handleMoveUp, handleMoveDown,
      handleVerticalOffsetChange, requestInRange, MIN_OFFSET, MAX_OFFSET,
      min_def, max_def] at h₁ h₂ he ⊢ <;>
    (try split_ifs) <;> omega

/-- Helper: one horizontal-offset event preserves the `[-50, 50]` range when
the requested value (for change events) is in range. -/
theorem applyHorizontalEvent_in_range (v : ℤ) (e : OffsetEvent)
    (h₁ : MIN_OFFSET ≤ v) (h₂ : v ≤ MAX_OFFSET) (he : requestInRange e) :
    MIN_OFFSET ≤ applyHorizontalEvent v e ∧ applyHorizontalEvent v e ≤ MAX_OFFSET := by
  cases e <;>
    simp only [applyHorizontalEvent, handleMoveLeft, handleMoveRight,
      handleHorizontalOffsetChange, requestInRange, MIN_OFFSET, MAX_OFFSET,
      min_def, max_def] at h₁ h₂ he ⊢ <;>
    (try split_ifs) <;> omega

/-- Claim C5 amended: the increment/decrement handlers clamp to `[-50, 50]`;
the range-input change handlers store the requested value unchanged, so after
any sequence of offset events starting in range, the stored vertical and
horizontal offsets stay within `[-50, 50]` provided every change request lies
within that range. -/
theorem offsets_stay_in_range (events : List OffsetEvent) (init : ℤ)
    (h₁ : MIN_OFFSET ≤ init) (h₂ : init ≤ MAX_OFFSET)
    (hreq : ∀ e ∈ events, requestInRange e) :
    (MIN_OFFSET ≤ runOffsetEvents applyVerticalEvent init events
      ∧ runOffsetEvents applyVerticalEvent init events ≤ MAX_OFFSET)
    ∧ (MIN_OFFSET ≤ runOffsetEvents applyHorizontalEvent init events
      ∧ runOffsetEvents applyHorizontalEvent init events ≤ MAX_OFFSET) :=
  ⟨runOffsetEvents_in_range applyVerticalEvent applyVerticalEvent_in_range
      events init h₁ h₂ hreq,
   runOffsetEvents_in_range applyHorizontalEvent applyHorizontalEvent_in_range
      events init h₁ h₂ hreq⟩

/-- Witness for the amended claim C5, at the initial offset 0 and the event
sequence increment, change-to-7, decrement. -/
theorem offsets_stay_in_range_witness :
    MIN_OFFSET ≤ (0 : ℤ) ∧ (0 : ℤ) ≤ MAX_OFFSET
    ∧ ((MIN_OFFSET ≤ runOffsetEvents applyVerticalEvent 0
          [OffsetEvent.increase, OffsetEvent.change 7, OffsetEvent.decrease]
        ∧ runOffsetEvents applyVerticalEvent 0
          [OffsetEvent.increase, OffsetEvent.change 7, OffsetEvent.decrease] ≤ MAX_OFFSET)
      ∧ (MIN_OFFSET ≤ runOffsetEvents applyHorizontalEvent 0
          [OffsetEvent.increase, OffsetEvent.change 7, OffsetEvent.decrease]
        ∧ runOffsetEvents applyHorizontalEvent 0
          [OffsetEvent.increase, OffsetEvent.change 7, OffsetEvent.decrease] ≤ MAX_OFFSET)) :=
  ⟨by decide, by decide,
   offsets_stay_in_range _ 0 (by decide) (by decide) (by
     intro e he
     simp only [List.mem_cons, List.not_mem_nil, or_false] at he
     rcases he with rfl | rfl | rfl
     · trivial
     · exact ⟨by decide, by decide⟩
     · trivial)⟩

/-- Claim C6: for a successfully detected face (on an image meeting the
minimum resolution), the upload handler reports the not-sufficiently-frontal
error and leaves the detection unset exactly when the eye-line angle exceeds
the 10-degree tolerance in absolute value; otherwise the detection is stored
with no error. -/
theorem frontal_check_iff (img : ImageDims) (d : FaceDetection)
    (hw : MIN_IMAGE_RESOLUTION ≤ img.width) (hh : MIN_IMAGE_RESOLUTION ≤ img.height) :
    (((handleImageUpload img (some d)).uploadError = some UploadError.notFrontal
        ∧ (handleImageUpload img (some d)).faceDetection = none)
      ↔ EYE_ANGLE_TOLERANCE_DEGREES < |eyeAngleDeg d|)
    ∧ (|eyeAngleDeg d| ≤ EYE_ANGLE_TOLERANCE_DEGREES →
        (handleImageUpload img (some d)).faceDetection = some d
        ∧ (handleImageUpload img (some d)).uploadError = none) := by
  have hcond : ¬ (img.width < MIN_IMAGE_RESOLUTION ∨ img.height < MIN_IMAGE_RESOLUTION) := by
    omega
  have hread : handleImageUpload img (some d)
      = if EYE_ANGLE_TOLERANCE_DEGREES < |eyeAngleDeg d| then
          { originalImage := some img, faceDetection := none,
            uploadError := some UploadError.notFrontal }
        else
          { originalImage := some img, faceDetection := some d,
            uploadError := none } := by
    unfold handleImageUpload
    rw [if_neg hcond]
  by_cases hang : EYE_ANGLE_TOLERANCE_DEGREES < |eyeAngleDeg d|
  · rw [hread, if_pos hang]
    exact ⟨by simpa using hang, fun hle => absurd hang (not_lt.mpr hle)⟩
  · rw [hread, if_neg hang]
    exact ⟨by simp [hang], fun _ => ⟨rfl, rfl⟩⟩

/-- Witness for C6, at a 600×600 image and the sample detection. -/
theorem frontal_check_iff_witness :
    MIN_IMAGE_RESOLUTION ≤ (ImageDims.mk 600 600).width
    ∧ MIN_IMAGE_RESOLUTION ≤ (ImageDims.mk 600 600).height
    ∧ ((((handleImageUpload ⟨600, 600⟩ (some sampleDetection)).uploadError
            = some UploadError.notFrontal
          ∧ (handleImageUpload ⟨600, 600⟩ (some sampleDetection)).faceDetection = none)
        ↔ EYE_ANGLE_TOLERANCE_DEGREES < |eyeAngleDeg sampleDetection|)
      ∧ (|eyeAngleDeg sampleDetection| ≤ EYE_ANGLE_TOLERANCE_DEGREES →
          (handleImageUpload ⟨600, 600⟩ (some sampleDetection)).faceDetection
              = some sampleDetection
          ∧ (handleImageUpload ⟨600, 600⟩ (some sampleDetection)).uploadError = none)) :=
  ⟨by decide, by decide,
   frontal_check_iff ⟨600, 600⟩ sampleDetection (by decide) (by decide)⟩

/-- Claim C7: an uploaded image whose width or height is below the minimum
resolution of 600 is rejected with the resolution error before the image is
stored or face detection is consulted: the original-image and detection state
remain unset. -/
theorem low_resolution_rejected (img : ImageDims) (detection : Option FaceDetection)
    (hlow : img.width < MIN_IMAGE_RESOLUTION ∨ img.height < MIN_IMAGE_RESOLUTION) :
    (handleImageUpload img detection).originalImage = none
    ∧ (handleImageUpload img detection).faceDetection = none
    ∧ (handleImageUpload img detection).uploadError = some UploadError.lowResolution := by
  unfold handleImageUpload
  rw [if_pos hlow]
  exact ⟨rfl, rfl, rfl⟩

/-- Witness for C7, at a 599×800 image. -/
theorem low_resolution_rejected_witness :
    ((ImageDims.mk 599 800).width < MIN_IMAGE_RESOLUTION
      ∨ (ImageDims.mk 599 800).height < MIN_IMAGE_RESOLUTION)
    ∧ ((handleImageUpload ⟨599, 800⟩ none).originalImage = none
      ∧ (handleImageUpload ⟨599, 800⟩ none).faceDetection = none
      ∧ (handleImageUpload ⟨599, 800⟩ none).uploadError = some UploadError.lowResolution) :=
  ⟨Or.inl (by decide), low_resolution_rejected ⟨599, 800⟩ none (Or.inl (by decide))⟩

/-- Claim C8: with a non-zero rotation angle, the draw transform of
`updateCroppedCanvas` is the rotation about the output canvas centre composed
(after scaling by the zoom level and conjugated by the centre translations)
with the crop-to-destination mapping:
`translate(center) . rotate(angle) . scale(zoom) . translate(-center)` applied
to where `drawImage` places each source point. -/
theorem rotation_about_center (cropRegion : Rect) (zoomLevel rotationAngle : ℝ)
    (p : Vec2) (_hrot : rotationAngle ≠ 0) :
    (updateCroppedCanvas cropRegion zoomLevel rotationAngle).drawnAt p
      = translateMap (((mmToPx 35 300 : ℤ) : ℝ) / 2) (((mmToPx 45 300 : ℤ) : ℝ) / 2)
          (rotateMap (rotationAngle * Real.pi / 180)
            (scaleMap zoomLevel
              (translateMap (-(((mmToPx 35 300 : ℤ) : ℝ) / 2))
                (-(((mmToPx 45 300 : ℤ) : ℝ) / 2))
                (cropToDest cropRegion ((mmToPx 35 300 : ℤ) : ℝ)
                  ((mmToPx 45 300 : ℤ) : ℝ) p)))) :=
  rfl

/-- Witness for C8, at rotation angle 5, zoom 1 and the origin. -/
theorem rotation_about_center_witness :
    (5 : ℝ) ≠ 0
    ∧ (updateCroppedCanvas ⟨0, 0, 300, 400⟩ 1 5).drawnAt (0, 0)
      = translateMap (((mmToPx 35 300 : ℤ) : ℝ) / 2) (((mmToPx 45 300 : ℤ) : ℝ) / 2)
          (rotateMap ((5 : ℝ) * Real.pi / 180)
            (scaleMap 1
              (translateMap (-(((mmToPx 35 300 : ℤ) : ℝ) / 2))
                (-(((mmToPx 45 300 : ℤ) : ℝ) / 2))
                (cropToDest ⟨0, 0, 300, 400⟩ ((mmToPx 35 300 : ℤ) : ℝ)
                  ((mmToPx 45 300 : ℤ) : ℝ) (0, 0))))) :=
  ⟨by norm_num, rotation_about_center ⟨0, 0, 300, 400⟩ 1 5 (0, 0) (by norm_num)⟩

/-- Claim C9: with the default adjustments (zoom 0.2, offsets 0), the
cropped-canvas transform depends only on the image and detection inputs: two
component states agreeing on those inputs produce identical scale, offsets
and canvas dimensions, whatever their other state. -/
theorem transform_deterministic (s₁ s₂ : PkEditorState)
    (himg : s₁.originalImage = s₂.originalImage)
    (hdet : s₁.faceDetection = s₂.faceDetection)
    (hz₁ : s₁.zoomFactor = 0.2) (hz₂ : s₂.zoomFactor = 0.2)
    (hv₁ : s₁.verticalOffset = 0) (hv₂ : s₂.verticalOffset = 0)
    (hh₁ : s₁.horizontalOffset = 0) (hh₂ : s₂.horizontalOffset = 0) :
    croppedCanvasEffect s₁ = croppedCanvasEffect s₂ := by
  unfold croppedCanvasEffect
  rw [himg, hdet, hz₁, hz₂, hv₁, hv₂, hh₁, hh₂]

/-- Witness for C9: `stateA` and `stateB` share image, detection and default
adjustments but differ in loading flag and error state. -/
theorem transform_deterministic_witness :
    stateA.originalImage = stateB.originalImage
    ∧ stateA.faceDetection = stateB.faceDetection
    ∧ stateA.zoomFactor = 0.2 ∧ stateB.zoomFactor = 0.2
    ∧ stateA.verticalOffset = 0 ∧ stateB.verticalOffset = 0
    ∧ stateA.horizontalOffset = 0 ∧ stateB.horizontalOffset = 0
    ∧ stateA.isLoading ≠ stateB.isLoading
    ∧ croppedCanvasEffect stateA = croppedCanvasEffect stateB :=
  ⟨rfl, rfl, rfl, rfl, rfl, rfl, rfl, rfl, by decide,
   transform_deterministic stateA stateB rfl rfl rfl rfl rfl rfl rfl rfl⟩

/-- Claim C10: given a crop region that fits inside the image, both the
dragging update and the bottom-right resizing update of `handleMouseMove`
keep the crop rectangle inside the image bounds, and resizing keeps width
equal to height times the current aspect ratio. -/
theorem crop_updates_stay_inside (originalImage : ImageDims) (cropRegion : Rect)
    (currentAspectRatio mouseX mouseY : ℚ)
    (hfit : fitsInside cropRegion originalImage)
    (har : 0 < currentAspectRatio) :
    (0 ≤ (handleMouseMoveDrag originalImage cropRegion mouseX mouseY).x
      ∧ 0 ≤ (handleMouseMoveDrag originalImage cropRegion mouseX mouseY).y
      ∧ (handleMouseMoveDrag originalImage cropRegion mouseX mouseY).x
          + (handleMouseMoveDrag originalImage cropRegion mouseX mouseY).width
          ≤ (originalImage.width : ℚ)
      ∧ (handleMouseMoveDrag originalImage cropRegion mouseX mouseY).y
          + (handleMouseMoveDrag originalImage cropRegion mouseX mouseY).height
          ≤ (originalImage.height : ℚ))
    ∧ (0 ≤ (handleMouseMoveResize originalImage cropRegion currentAspectRatio mouseX).x
      ∧ 0 ≤ (handleMouseMoveResize originalImage cropRegion currentAspectRatio mouseX).y
      ∧ (handleMouseMoveResize originalImage cropRegion currentAspectRatio mouseX).x
          + (handleMouseMoveResize originalImage cropRegion currentAspectRatio mouseX).width
          ≤ (originalImage.width : ℚ)
      ∧ (handleMouseMoveResize originalImage cropRegion currentAspectRatio mouseX).y
          + (handleMouseMoveResize originalImage cropRegion currentAspectRatio mouseX).height
          ≤ (originalImage.height : ℚ)
      ∧ (handleMouseMoveResize originalImage cropRegion currentAspectRatio mouseX).width
          = (handleMouseMoveResize originalImage cropRegion currentAspectRatio mouseX).height
            * currentAspectRatio) := by
  obtain ⟨hx, hy, hw, hh, hxw, hyh⟩ := hfit
  have harne : currentAspectRatio ≠ 0 := ne_of_gt har
  constructor
  · simp only [handleMouseMoveDrag]
    refine ⟨le_max_left _ _, le_max_left _ _, ?_, ?_⟩
    · have h1 : max 0 (min (mouseX - cropRegion.width / 2)
            ((originalImage.width : ℚ) - cropRegion.width))
          ≤ (originalImage.width : ℚ) - cropRegion.width :=
        max_le (by linarith) (min_le_right _ _)
      linarith
    · have h1 : max 0 (min (mouseY - cropRegion.height / 2)
            ((originalImage.height : ℚ) - cropRegion.height))
          ≤ (originalImage.height : ℚ) - cropRegion.height :=
        max_le (by linarith) (min_le_right _ _)
      linarith
  · simp only [handleMouseMoveResize]
    split_ifs with h1 h2 h3 h4 h5
    · exfalso
      have e1 : (originalImage.height : ℚ) - cropRegion.y
          < ((originalImage.width : ℚ) - cropRegion.x) / currentAspectRatio := by linarith
      have e2 := (lt_div_iff₀ har).mp e1
      linarith
    · exact ⟨hx, hy, not_lt.mp h3, by linarith, rfl⟩
    · exact ⟨hx, hy, by linarith, not_lt.mp h2, (div_mul_cancel₀ _ harne).symm⟩
    · exfalso
      have e0 : cropRegion.x + max 50 (mouseX - cropRegion.x)
          ≤ (originalImage.width : ℚ) := not_lt.mp h1
      have e1 : (originalImage.height : ℚ) - cropRegion.y
          < max 50 (mouseX - cropRegion.x) / currentAspectRatio := by linarith
      have e2 := (lt_div_iff₀ har).mp e1
      linarith
    · exact ⟨hx, hy, not_lt.mp h5, by linarith, rfl⟩
    · exact ⟨hx, hy, not_lt.mp h1, not_lt.mp h4, (div_mul_cancel₀ _ harne).symm⟩

/-- Witness for C10, at a 600×600 image, the crop region (0, 0, 100, 100),
aspect ratio 1 and mouse position (200, 300). -/
theorem crop_updates_stay_inside_witness :
    fitsInside ⟨0, 0, 100, 100⟩ ⟨600, 600⟩ ∧ (0 : ℚ) < 1
    ∧ ((0 ≤ (handleMouseMoveDrag ⟨600, 600⟩ ⟨0, 0, 100, 100⟩ 200 300).x
      ∧ 0 ≤ (handleMouseMoveDrag ⟨600, 600⟩ ⟨0, 0, 100, 100⟩ 200 300).y
      ∧ (handleMouseMoveDrag ⟨600, 600⟩ ⟨0, 0, 100, 100⟩ 200 300).x
          + (handleMouseMoveDrag ⟨600, 600⟩ ⟨0, 0, 100, 100⟩ 200 300).width
          ≤ ((600 : ℕ) : ℚ)
      ∧ (handleMouseMoveDrag ⟨600, 600⟩ ⟨0, 0, 100, 100⟩ 200 300).y
          + (handleMouseMoveDrag ⟨600, 600⟩ ⟨0, 0, 100, 100⟩ 200 300).height
          ≤ ((600 : ℕ) : ℚ))
    ∧ (0 ≤ (handleMouseMoveResize ⟨600, 600⟩ ⟨0, 0, 100, 100⟩ 1 200).x
      ∧ 0 ≤ (handleMouseMoveResize ⟨600, 600⟩ ⟨0, 0, 100, 100⟩ 1 200).y
      ∧ (handleMouseMoveResize ⟨600, 600⟩ ⟨0, 0, 100, 100⟩ 1 200).x
          + (handleMouseMoveResize ⟨600, 600⟩ ⟨0, 0, 100, 100⟩ 1 200).width
          ≤ ((600 : ℕ) : ℚ)
      ∧ (handleMouseMoveResize ⟨600, 600⟩ ⟨0, 0, 100, 100⟩ 1 200).y
          + (handleMouseMoveResize ⟨600, 600⟩ ⟨0, 0, 100, 100⟩ 1 200).height
          ≤ ((600 : ℕ) : ℚ)
      ∧ (handleMouseMoveResize ⟨600, 600⟩ ⟨0, 0, 100, 100⟩ 1 200).width
          = (handleMouseMoveResize ⟨600, 600⟩ ⟨0, 0, 100, 100⟩ 1 200).height * 1)) :=
  ⟨by norm_num [fitsInside], by norm_num,
   crop_updates_stay_inside ⟨600, 600⟩ ⟨0, 0, 100, 100⟩ 1 200 300
     (by norm_num [fitsInside]) (by norm_num)⟩
